import Mathlib

/-!
Verification of the c3 terminal-streaming server core against its design
specification.  Each Go component relevant to the checked properties is given
a shallow embedding below: pure byte-level logic is translated to executable
Lean functions, stateful components become explicit state-passing functions,
and effects (tmux shell-outs, goroutine starts, channel sends) become explicit
action traces.  Go `int64` values that are provably non-negative in the source
(the ring buffer `writePos`, the session epoch) are modelled as `Nat`;
caller-supplied `int64` offsets are modelled as `Int`.
-/

namespace C3

/-! ## RingBuffer (ringbuffer.go)

`RingBuffer` holds a fixed byte slice `buf` of length `size` and a monotonic
total write position.  Bytes are modelled as natural numbers.  -/

structure RingBuffer where
  buf : List Nat
  size : Nat
  writePos : Nat
  deriving Repr, DecidableEq

/-- `NewRingBuffer` (ringbuffer.go:18): a zeroed buffer of the given size. -/
def NewRingBuffer (size : Nat) : RingBuffer :=
  { buf := List.replicate size 0, size := size, writePos := 0 }

/-- Go `copy(dst[idx:], src)`: overwrite `dst` starting at index `idx` with as
many bytes of `src` as fit; return the new list and the number copied. -/
def goCopy (dst : List Nat) (idx : Nat) (src : List Nat) : List Nat × Nat :=
  let n := min (dst.length - idx) src.length
  (dst.take idx ++ src.take n ++ dst.drop (idx + n), n)

/-- The loop body of `RingBuffer.Write` (ringbuffer.go:30-35).  `fuel` bounds
the number of iterations; when `size > 0` every iteration copies at least one
byte, so `fuel = data.length` always suffices (for `size = 0` the Go loop
would not terminate at all). -/
def writeLoop : Nat → RingBuffer → List Nat → RingBuffer
  | 0, rb, _ => rb
  | fuel + 1, rb, data =>
    if data.isEmpty then rb
    else
      let idx := rb.writePos % rb.size
      let r := goCopy rb.buf idx data
      writeLoop fuel
        { rb with buf := r.1, writePos := rb.writePos + r.2 }
        (data.drop r.2)

/-- `RingBuffer.Write` (ringbuffer.go:26-36): append `data`, wrapping at
`size`, advancing `writePos` by the number of bytes written. -/
def RingBuffer.write (rb : RingBuffer) (data : List Nat) : RingBuffer :=
  writeLoop data.length rb data

/-- `RingBuffer.oldestOffset` (ringbuffer.go:46-51). -/
def RingBuffer.oldestOffset (rb : RingBuffer) : Nat :=
  if rb.writePos ≤ rb.size then 0 else rb.writePos - rb.size

/-- The chunked copy-out loop shared by `ReadFrom`/`Tail`/`Snapshot`
(ringbuffer.go:78-87 etc.): starting at absolute position `pos`, collect
`remaining` bytes from the ring, chunk by chunk.  `fuel = remaining`
suffices whenever `size > 0`. -/
def readChunks : Nat → List Nat → Nat → Nat → Nat → List Nat
  | 0, _, _, _, _ => []
  | fuel + 1, buf, size, pos, remaining =>
    if remaining = 0 then []
    else
      let idx := pos % size
      let e := min (idx + remaining) size
      let chunk := (buf.drop idx).take (e - idx)
      chunk ++ readChunks fuel buf size (pos + (e - idx)) (remaining - (e - idx))

/-- Result of `RingBuffer.ReadFrom`: bytes read, next offset, error flag. -/
structure ReadResult where
  bytes : List Nat
  next : Int
  overwritten : Bool
  deriving Repr, DecidableEq

/-- `RingBuffer.ReadFrom` (ringbuffer.go:57-90).  `offset` is the
caller-supplied `int64`; `dstLen` is the capacity of the destination slice. -/
def RingBuffer.readFrom (rb : RingBuffer) (offset : Int) (dstLen : Nat) : ReadResult :=
  let oldest : Int := rb.oldestOffset
  if offset < oldest then
    { bytes := [], next := oldest, overwritten := true }
  else if offset ≥ (rb.writePos : Int) then
    { bytes := [], next := offset, overwritten := false }
  else
    let off := offset.toNat
    let available := min (rb.writePos - off) dstLen
    let bytes := readChunks available rb.buf rb.size off available
    { bytes := bytes, next := offset + bytes.length, overwritten := false }

/-- `RingBuffer.Snapshot` (ringbuffer.go:177-203): all retained bytes in write
order together with the offset of the first one. -/
def RingBuffer.snapshot (rb : RingBuffer) : List Nat × Nat :=
  let oldest := rb.oldestOffset
  let available := rb.writePos - oldest
  if available = 0 then ([], rb.writePos)
  else (readChunks available rb.buf rb.size oldest available, oldest)

/-- Byte view of a string (ASCII code points), for concrete test vectors. -/
def strBytes (s : String) : List Nat :=
  s.data.map Char.toNat

/-! ## PaneMonitor (tmux.go)

The monitor polls `ResolvePaneTTY` and publishes transitions.  The outcome of
one tmux query is modelled as `Option String` (`none` = query error). -/

inductive PaneState where
  | missing
  | connected
  deriving Repr, DecidableEq

/-- `PaneEvent` (tmux.go:186-190). -/
structure PaneEvent where
  state : PaneState
  tty : String := ""
  newTTY : Bool := false
  deriving Repr, DecidableEq

/-- Mutable state of `PaneMonitor` touched by `check` (tmux.go:193-202). -/
structure MonitorState where
  target : String
  state : PaneState
  lastTTY : String
  deriving Repr, DecidableEq

/-- `PaneMonitor.check` (tmux.go:273-314): one poll.  `resolved` is the result
of `ResolvePaneTTY target` (`none` on error).  Returns the updated monitor
state and the event handed to `emit`, if any. -/
def monitorCheck (m : MonitorState) (resolved : Option String) :
    MonitorState × Option PaneEvent :=
  if m.target = "" then (m, none)
  else
    match resolved with
    | none =>
      if m.state ≠ PaneState.missing then
        ({ m with state := PaneState.missing },
         some { state := PaneState.missing })
      else (m, none)
    | some tty =>
      if m.state = PaneState.missing then
        ({ m with state := PaneState.connected, lastTTY := tty },
         some { state := PaneState.connected, tty := tty, newTTY := true })
      else if tty ≠ m.lastTTY then
        ({ m with lastTTY := tty },
         some { state := PaneState.connected, tty := tty, newTTY := true })
      else (m, none)

/-! ## PTYManager (pty.go)

`Open` attaches to a pane: open the PTY slave, make the FIFO, bump the epoch,
start `tmux pipe-pane`, and spawn the reader/writer/resizer goroutines.  The
side effects are recorded as an explicit action trace; the outcome of each
fallible external step is a parameter. -/

inductive PTYAction where
  | openSlave (ttyPath : String)
  | removeStaleFifo (path : String)
  | mkfifo (path : String) (mode : Nat)
  | incEpoch
  | tmuxPipePane (target : String) (path : String)
  | startFifoReader
  | startWriteLoop
  | startResizeLoop
  deriving Repr, DecidableEq

/-- How far `PTYManager.Open` gets before an external call fails. -/
inductive OpenOutcome where
  | ptySlaveFail
  | mkfifoFail
  | pipePaneFail
  | ok
  deriving Repr, DecidableEq

/-- Mutable `PTYManager` state relevant to the claims. -/
structure PTYState where
  tmuxTarget : String
  epoch : Nat
  deriving Repr, DecidableEq

/-- The FIFO path built in `PTYManager.Open` (pty.go:86-87):
`filepath.Join(os.TempDir(), fmt.Sprintf("c3-pipe-%d", os.Getpid()))`.
The tmux target and the tty path of the attachment are in scope in `Open` but
do not enter the path. -/
def openFifoPath (tmpDir : String) (pid : Nat) (tmuxTarget ttyPath : String) : String :=
  tmpDir ++ "/c3-pipe-" ++ toString pid

/-- The mode passed to `unix.Mkfifo` in `PTYManager.Open` (pty.go:89). -/
def mkfifoMode : Nat := 0o600

/-- `PTYManager.Open` (pty.go:74-117): returns the new state, whether the call
succeeded, and the trace of external actions in program order. -/
def ptyOpen (p : PTYState) (tmpDir : String) (pid : Nat) (ttyPath : String)
    (outcome : OpenOutcome) : PTYState × Bool × List PTYAction :=
  let fifoPath := openFifoPath tmpDir pid p.tmuxTarget ttyPath
  match outcome with
  | OpenOutcome.ptySlaveFail => (p, false, [PTYAction.openSlave ttyPath])
  | OpenOutcome.mkfifoFail =>
    (p, false,
     [PTYAction.openSlave ttyPath, PTYAction.removeStaleFifo fifoPath,
      PTYAction.mkfifo fifoPath mkfifoMode])
  | OpenOutcome.pipePaneFail =>
    ({ p with epoch := p.epoch + 1 }, false,
     [PTYAction.openSlave ttyPath, PTYAction.removeStaleFifo fifoPath,
      PTYAction.mkfifo fifoPath mkfifoMode, PTYAction.incEpoch,
      PTYAction.tmuxPipePane p.tmuxTarget fifoPath])
  | OpenOutcome.ok =>
    ({ p with epoch := p.epoch + 1 }, true,
     [PTYAction.openSlave ttyPath, PTYAction.removeStaleFifo fifoPath,
      PTYAction.mkfifo fifoPath mkfifoMode, PTYAction.incEpoch,
      PTYAction.tmuxPipePane p.tmuxTarget fifoPath,
      PTYAction.startFifoReader, PTYAction.startWriteLoop,
      PTYAction.startResizeLoop])

/-- `PTYManager.Close` / `closeLocked` (pty.go:120-147): stops goroutines and
removes the FIFO; the epoch field is not touched. -/
def ptyClose (p : PTYState) : PTYState := p

/-- One lifecycle operation on a `PTYManager`, as driven by the supervisor:
either `Close` or `Open`/`Reattach` (reattach = close, then open) with a given
external outcome. -/
inductive PTYOp where
  | close
  | open (tmpDir : String) (pid : Nat) (ttyPath : String) (outcome : OpenOutcome)
  deriving Repr, DecidableEq

/-- Run a sequence of lifecycle operations from a starting state. -/
def runPTYOps (p : PTYState) : List PTYOp → PTYState
  | [] => p
  | PTYOp.close :: ops => runPTYOps (ptyClose p) ops
  | PTYOp.open tmpDir pid tty outcome :: ops =>
    runPTYOps (ptyOpen p tmpDir pid tty outcome).1 ops

/-! ## Hub (hub.go)

The hub keeps a map of clients; `Broadcast` tries a non-blocking send of the
encoded frame into each client's buffered channel.  A client's buffered send
channel is modelled by its queue contents and capacity; `conn.CloseNow()`
issued on a background goroutine is recorded in `closeIssued`. -/

structure HubClient where
  id : String
  queue : List (List Nat)
  queueCap : Nat
  dropped : Nat
  closeIssued : Bool
  deriving Repr, DecidableEq

/-- The per-client body of `Hub.Broadcast` (hub.go): non-blocking send of
`raw`; on a full queue increment `dropped` and, once `dropped >= 10`,
force-close the client's connection on a background goroutine. -/
def broadcastToClient (raw : List Nat) (c : HubClient) : HubClient :=
  if c.queue.length < c.queueCap then
    { c with queue := c.queue ++ [raw] }
  else
    let d := c.dropped + 1
    { c with dropped := d, closeIssued := c.closeIssued || decide (d ≥ 10) }

/-- `Hub.Broadcast` (hub.go): deliver one encoded frame to every registered
client under the read lock. -/
def hubBroadcast (raw : List Nat) (clients : List HubClient) : List HubClient :=
  clients.map (broadcastToClient raw)

/-- Hub registry state for `Register`/`Unregister` (hub.go): the set of
registered client ids (Go map keys are unique) and, per id, how many times
`close(c.sendCh)` has been executed. -/
structure HubState where
  clients : List String
  closeCount : String → Nat

/-- `Hub.Unregister` (hub.go): remove the client from the map and close its
send channel, but only if it is still registered. -/
def hubUnregister (h : HubState) (id : String) : HubState :=
  if id ∈ h.clients then
    { clients := h.clients.erase id,
      closeCount := fun x => if x = id then h.closeCount x + 1 else h.closeCount x }
  else h

/-! ## Client (client.go, revision in src/unnamed/part_010)

The subscriber connection logic.  The replay step and the surrounding
`readPump` sequencing are modelled as an explicit event trace; results of the
tmux shell-outs (`CapturePane`, `CursorPosition`) and of `pty.Target()` are
parameters. -/

inductive ClientEvent where
  | capturePane (target : String) (scrollbackLines : Nat)
  | queryCursor (target : String)
  | outputFrame (data : List Nat)
  | registerHub
  | sendStatus
  | injectCtrlL
  deriving Repr, DecidableEq

/-- Argument vector of the tmux pane-capture shell-out, `CapturePane`
(tmux.go:73-85): `-e` preserves escape sequences, `-S -N` includes `N` lines
of scrollback before the visible area. -/
def capturePaneArgs (target : String) (scrollbackLines : Nat) : List String :=
  ["capture-pane", "-e", "-p", "-t", target, "-S", "-" ++ toString scrollbackLines]

/-- `bytes.ReplaceAll(snapshot, "\n", "\r\n")` from `Client.replay`: the
pattern is the single byte LF (10), replaced by CR LF (13 10). -/
def crlfNormalize (data : List Nat) : List Nat :=
  data.flatMap fun b => if b = 10 then [13, 10] else [b]

/-- The cursor-home escape `"\x1b[H"` prefixed to the snapshot. -/
def cursorHome : List Nat := [27, 91, 72]

/-- `fmt.Sprintf("\x1b[%d;%dH", row+1, col+1)` from `Client.replay`: the ANSI
cursor-position escape, 1-indexed. -/
def cursorPosSeq (row1 col1 : Nat) : List Nat :=
  [27, 91] ++ strBytes (toString row1) ++ [59] ++ strBytes (toString col1) ++ [72]

/-- Chunking of the full-replay payload (`Client.replay`, chunkSize 64 KiB):
successive output frames of at most `chunk` bytes. -/
def chunkFrames (chunk : Nat) : List Nat → List ClientEvent
  | [] => []
  | b :: rest =>
    if chunk = 0 then []
    else
      ClientEvent.outputFrame ((b :: rest).take chunk) ::
      chunkFrames chunk ((b :: rest).drop chunk)
  termination_by data => data.length
  decreasing_by
    simp only [List.length_drop, List.length_cons]
    omega

/-- `Client.replay` (src/unnamed/part_010): the events produced by the replay
step.  `target` is `c.pty.Target()`; `capture` is the result of
`CapturePane(target, 2000)` (`none` = error); `cursor` is the result of
`CursorPosition(target)` as `(col, row)`; `ringSnap` is the ring snapshot used
in full mode. -/
def clientReplay (replayMode target : String) (capture : Option (List Nat))
    (cursor : Option (Nat × Nat)) (ringSnap : List Nat) : List ClientEvent :=
  if replayMode ≠ "full" then
    if target ≠ "" then
      ClientEvent.capturePane target 2000 ::
      (match capture with
       | some snap =>
         if snap.length > 0 then
           let fixed := crlfNormalize snap
           let base := cursorHome ++ fixed
           ClientEvent.queryCursor target ::
           (match cursor with
            | some (col, row) =>
              [ClientEvent.outputFrame (base ++ cursorPosSeq (row + 1) (col + 1))]
            | none => [ClientEvent.outputFrame base])
         else []
       | none => [])
    else []
  else
    chunkFrames (64 * 1024) ringSnap

/-- `Client.readPump` after a well-formed hello (src/unnamed/part_010):
replay, register with the hub, send the status frame, and in non-full mode
schedule the Ctrl-L repaint nudge. -/
def clientConnectEvents (replayMode target : String) (capture : Option (List Nat))
    (cursor : Option (Nat × Nat)) (ringSnap : List Nat) : List ClientEvent :=
  clientReplay replayMode target capture cursor ringSnap ++
  [ClientEvent.registerHub, ClientEvent.sendStatus] ++
  (if replayMode ≠ "full" then [ClientEvent.injectCtrlL] else [])

/-- The status frame built by `Client.sendStatus` (client.go:219-238 and
src/unnamed/part_010): `paneState` is the string literal `"connected"`
regardless of the actual pane state; `dims` is the result of
`PaneDimensions(target)` when `target` is non-empty. -/
structure StatusMsg where
  type : String
  paneState : String
  epoch : Nat
  cols : Nat
  rows : Nat
  deriving Repr, DecidableEq

def sendStatusMsg (epoch : Nat) (target : String) (dims : Option (Nat × Nat)) :
    StatusMsg :=
  let base : StatusMsg :=
    { type := "status", paneState := "connected", epoch := epoch, cols := 0, rows := 0 }
  if target ≠ "" then
    match dims with
    | some (c, r) => { base with cols := c, rows := r }
    | none => base
  else base

/-! ## Session supervisor (session.go, src/unnamed/part_009)

The goroutine in `SessionManager.createLocked` consumes monitor events and
drives the PTY manager and status broadcasts. -/

inductive SupAction where
  | reattach (tty : String)
  | logAttachError
  | broadcastStatus (paneState : String) (epoch : Nat)
  | closePTY
  deriving Repr, DecidableEq

/-- One iteration of the supervisor loop (src/unnamed/part_009:63-85) on a
monitor event.  `outcome` is the external outcome of the `Open` inside
`Reattach`. -/
def supervisorStep (p : PTYState) (ev : PaneEvent) (tmpDir : String) (pid : Nat)
    (outcome : OpenOutcome) : PTYState × List SupAction :=
  match ev.state with
  | PaneState.connected =>
    if ev.newTTY then
      let r := ptyOpen (ptyClose p) tmpDir pid ev.tty outcome
      (r.1,
       [SupAction.reattach ev.tty] ++
       (if r.2.1 then [] else [SupAction.logAttachError]) ++
       [SupAction.broadcastStatus "connected" r.1.epoch])
    else (p, [])
  | PaneState.missing =>
    (ptyClose p, [SupAction.closePTY, SupAction.broadcastStatus "missing" p.epoch])

/-! ## Client message parsing and the live loop (messages.go, client.go)

`ParseClientMessage` dispatches on the JSON `type` field; the already-decoded
field values of the raw JSON object are collected in `RawClientMsg`. -/

structure RawClientMsg where
  type : String
  data : String := ""
  replayMode : String := ""
  tailSize : Nat := 0
  cols : Nat := 0
  rows : Nat := 0
  deriving Repr, DecidableEq

inductive ClientMsg where
  | hello (replayMode : String) (tailSize : Nat)
  | input (data : String)
  | resize (cols rows : Nat)
  deriving Repr, DecidableEq

/-- `ParseClientMessage` (messages.go, src/unnamed/part_013:48-78). -/
def parseClientMessage (m : RawClientMsg) : Except String ClientMsg :=
  match m.type with
  | "hello" => Except.ok (ClientMsg.hello m.replayMode m.tailSize)
  | "input" => Except.ok (ClientMsg.input m.data)
  | "resize" => Except.ok (ClientMsg.resize m.cols m.rows)
  | _ => Except.error "unknown message type"

/-- Server-side state a live-loop message could touch: the PTY manager, the
monitor and the ring buffer of the session. -/
structure SessionState where
  pty : PTYState
  monitor : MonitorState
  ring : RingBuffer
  deriving Repr, DecidableEq

inductive LiveAction where
  | writeInput (data : List Nat)
  | warnInvalidBase64
  | warnUnexpected
  | applyPaneResize (cols rows : Nat)
  deriving Repr, DecidableEq

/-- The message dispatch of the live loop in `Client.readPump`
(client.go:110-125): input is base64-decoded (`decoded = none` models a
decode error) and handed to `pty.WriteInput`; resize is parsed and discarded
(`_ = m`); a hello in the live loop is logged as unexpected.  No case touches
the session state. -/
def handleLiveMessage (st : SessionState) (m : ClientMsg)
    (decoded : Option (List Nat)) : SessionState × List LiveAction :=
  match m with
  | ClientMsg.input _ =>
    (st,
     match decoded with
     | some bytes => [LiveAction.writeInput bytes]
     | none => [LiveAction.warnInvalidBase64])
  | ClientMsg.resize _ _ => (st, [])
  | ClientMsg.hello _ _ => (st, [LiveAction.warnUnexpected])

/-! ## Helper lemmas -/

theorem goCopy_snd (dst : List Nat) (idx : Nat) (src : List Nat) :
    (goCopy dst idx src).2 = min (dst.length - idx) src.length := rfl

theorem goCopy_length (dst : List Nat) (idx : Nat) (src : List Nat)
    (h : idx ≤ dst.length) : (goCopy dst idx src).1.length = dst.length := by
  unfold goCopy
  simp only [List.length_append, List.length_take, List.length_drop]
  omega

theorem writeLoop_spec (fuel : Nat) :
    ∀ (rb : RingBuffer) (data : List Nat), data.length ≤ fuel →
    0 < rb.size → rb.buf.length = rb.size →
    (writeLoop fuel rb data).writePos = rb.writePos + data.length ∧
    (writeLoop fuel rb data).buf.length = rb.size ∧
    (writeLoop fuel rb data).size = rb.size := by
  induction fuel with
  | zero =>
    intro rb data hlen _ hbuf
    have : data = [] := List.length_eq_zero.mp (Nat.le_zero.mp hlen)
    subst this
    exact ⟨rfl, hbuf, rfl⟩
  | succ fuel ih =>
    intro rb data hlen hsz hbuf
    by_cases hdat : data.isEmpty
    · have : data = [] := by
        cases data with
        | nil => rfl
        | cons b rest => simp at hdat
      subst this
      exact ⟨rfl, hbuf, rfl⟩
    · have hne : data ≠ [] := by
        intro h; subst h; simp at hdat
      have hpos : 0 < data.length := List.length_pos.mpr hne
      have hidx : rb.writePos % rb.size < rb.size := Nat.mod_lt _ hsz
      have hidx' : rb.writePos % rb.size < rb.buf.length := by omega
      set idx := rb.writePos % rb.size with hidxdef
      have hn : (goCopy rb.buf idx data).2 = min (rb.buf.length - idx) data.length :=
        goCopy_snd _ _ _
      have hn1 : 1 ≤ (goCopy rb.buf idx data).2 := by
        rw [hn]; omega
      have hnle : (goCopy rb.buf idx data).2 ≤ data.length := by
        rw [hn]; omega
      have hblen : (goCopy rb.buf idx data).1.length = rb.buf.length :=
        goCopy_length _ _ _ (Nat.le_of_lt hidx')
      have hrec := ih
        { rb with buf := (goCopy rb.buf idx data).1,
                  writePos := rb.writePos + (goCopy rb.buf idx data).2 }
        (data.drop (goCopy rb.buf idx data).2)
        (by simp only [List.length_drop]; omega)
        hsz
        (by simpa [hblen] using hbuf)
      rw [writeLoop, if_neg (by simpa using hdat)]
      refine ⟨?_, hrec.2.1, hrec.2.2⟩
      rw [hrec.1]
      simp only [List.length_drop]
      omega

theorem write_writePos (rb : RingBuffer) (data : List Nat)
    (hsz : 0 < rb.size) (hbuf : rb.buf.length = rb.size) :
    (rb.write data).writePos = rb.writePos + data.length :=
  (writeLoop_spec data.length rb data (Nat.le_refl _) hsz hbuf).1

theorem readChunks_length_le (fuel : Nat) :
    ∀ (buf : List Nat) (size pos remaining : Nat),
    (readChunks fuel buf size pos remaining).length ≤ remaining := by
  induction fuel with
  | zero => intro buf size pos remaining; simp [readChunks]
  | succ fuel ih =>
    intro buf size pos remaining
    rw [readChunks]
    by_cases hr : remaining = 0
    · simp [hr]
    · rw [if_neg hr]
      simp only [List.length_append, List.length_take, List.length_drop]
      have := ih buf size (pos + (min (pos % size + remaining) size - pos % size))
        (remaining - (min (pos % size + remaining) size - pos % size))
      omega

theorem oldestOffset_cast (rb : RingBuffer) :
    (rb.oldestOffset : Int) = max 0 ((rb.writePos : Int) - rb.size) := by
  unfold RingBuffer.oldestOffset
  split <;> omega

theorem readFrom_next (rb : RingBuffer) (o : Int) (dstLen : Nat) :
    (rb.readFrom o dstLen).next =
      if o < (rb.oldestOffset : Int) then (rb.oldestOffset : Int)
      else if o ≥ (rb.writePos : Int) then o
      else o + (readChunks (min (rb.writePos - o.toNat) dstLen) rb.buf rb.size
                  o.toNat (min (rb.writePos - o.toNat) dstLen)).length := by
  unfold RingBuffer.readFrom
  dsimp only
  split_ifs <;> rfl

/-! ## Claim theorems -/

/-- C3: for every offset `o ≥ max(0, writePos − capacity)`, `ReadFrom`
succeeds (no overwritten error); for every `o` below that bound it returns the
overwritten error together with the fast-forward offset
`max(0, writePos − capacity)`.  Concretely, a ring of capacity 16 holding the
20 appended bytes `0123456789abcdefghij` snapshots to `456789abcdefghij` at
start offset 4, and `ReadFrom(0, dst)` errors with next offset 4. -/
theorem C3_ring_retention (rb : RingBuffer) (o : Int) (dstLen : Nat) :
    (max 0 ((rb.writePos : Int) - rb.size) ≤ o →
      (rb.readFrom o dstLen).overwritten = false) ∧
    (o < max 0 ((rb.writePos : Int) - rb.size) →
      (rb.readFrom o dstLen).overwritten = true ∧
      (rb.readFrom o dstLen).next = max 0 ((rb.writePos : Int) - rb.size)) ∧
    ((NewRingBuffer 16).write (strBytes "0123456789abcdefghij")).snapshot =
      (strBytes "456789abcdefghij", 4) ∧
    (((NewRingBuffer 16).write (strBytes "0123456789abcdefghij")).readFrom 0 10).overwritten
      = true ∧
    (((NewRingBuffer 16).write (strBytes "0123456789abcdefghij")).readFrom 0 10).next = 4 := by
  refine ⟨?_, ?_, by decide, by decide, by decide⟩
  · intro hge
    unfold RingBuffer.readFrom
    rw [if_neg (by rw [oldestOffset_cast]; omega)]
    split <;> rfl
  · intro hlt
    unfold RingBuffer.readFrom
    rw [if_pos (by rw [oldestOffset_cast]; omega)]
    exact ⟨rfl, by rw [oldestOffset_cast]⟩

theorem C3_ring_retention_witness :
    (((NewRingBuffer 16).write (strBytes "0123456789abcdefghij")).readFrom 7 5).overwritten
      = false ∧
    (((NewRingBuffer 16).write (strBytes "0123456789abcdefghij")).readFrom 2 5).overwritten
      = true :=
  ⟨(C3_ring_retention ((NewRingBuffer 16).write (strBytes "0123456789abcdefghij")) 7 5).1
      (by decide),
   ((C3_ring_retention ((NewRingBuffer 16).write (strBytes "0123456789abcdefghij")) 2 5).2.1
      (by decide)).1⟩

/-- C4 counterexample: on an empty ring of capacity 16, `ReadFrom(1, dst)`
takes the `offset >= writePos` branch and returns next offset 1, which is
strictly greater than `writePos = 0` — the claimed bound
`nextOffset ≤ writePos` fails. -/
theorem C4_next_offset_counterexample :
    ((NewRingBuffer 16).readFrom 1 4).next = 1 ∧
    (NewRingBuffer 16).writePos = 0 ∧
    ¬ ((NewRingBuffer 16).readFrom 1 4).next ≤ (((NewRingBuffer 16).writePos : Nat) : Int) := by
  decide

/-- C4 (amended): every append is total and advances `writePos` by exactly the
length written (so `writePos` is non-decreasing over any sequence of appends),
and every `ReadFrom` returns a next offset bounded by
`max(offset, writePos)`; in particular `next ≤ writePos` whenever the
requested offset is at most `writePos`. -/
theorem C4_ring_monotonicity_amended (rb : RingBuffer) (data : List Nat)
    (o : Int) (dstLen : Nat) (hsz : 0 < rb.size) (hbuf : rb.buf.length = rb.size) :
    (rb.write data).writePos = rb.writePos + data.length ∧
    (rb.write data).buf.length = rb.size ∧
    (rb.readFrom o dstLen).next ≤ max o (rb.writePos : Int) ∧
    (o ≤ (rb.writePos : Int) → (rb.readFrom o dstLen).next ≤ (rb.writePos : Int)) := by
  have hw := writeLoop_spec data.length rb data (Nat.le_refl _) hsz hbuf
  have hnext : (rb.readFrom o dstLen).next ≤ max o (rb.writePos : Int) := by
    have hco := oldestOffset_cast rb
    rw [readFrom_next]
    split_ifs with h1 h2
    · omega
    · omega
    · have ho : 0 ≤ o := by omega
      have htn : ((o.toNat : Nat) : Int) = o := Int.toNat_of_nonneg ho
      have hb := readChunks_length_le (min (rb.writePos - o.toNat) dstLen)
        rb.buf rb.size o.toNat (min (rb.writePos - o.toNat) dstLen)
      omega
  exact ⟨hw.1, hw.2.1, hnext, fun hle => by
    have := hnext
    omega⟩

theorem C4_ring_monotonicity_amended_witness :
    (((NewRingBuffer 16).write (strBytes "abc")).writePos =
      (NewRingBuffer 16).writePos + (strBytes "abc").length) ∧
    ((NewRingBuffer 16).readFrom 0 8).next ≤ ((NewRingBuffer 16).writePos : Int) :=
  ⟨(C4_ring_monotonicity_amended (NewRingBuffer 16) (strBytes "abc") 0 8
      (by decide) (by decide)).1,
   (C4_ring_monotonicity_amended (NewRingBuffer 16) (strBytes "abc") 0 8
      (by decide) (by decide)).2.2.2 (by decide)⟩

/-- C5: the pane monitor's `check` emits exactly on state transitions:
missing → present emits a present event flagged `newTTY` (first attach always
counts as a new path); present with a changed tty emits `newTTY`; present with
the same tty emits nothing; present → absent emits an absent event; and a poll
that keeps the pane absent emits nothing. -/
theorem C5_monitor_transitions (target tty p p' : String)
    (htarget : target ≠ "") (hne : p' ≠ p) :
    (monitorCheck { target := target, state := PaneState.missing, lastTTY := p }
        (some tty) =
      ({ target := target, state := PaneState.connected, lastTTY := tty },
       some { state := PaneState.connected, tty := tty, newTTY := true })) ∧
    (monitorCheck { target := target, state := PaneState.connected, lastTTY := p }
        (some p') =
      ({ target := target, state := PaneState.connected, lastTTY := p' },
       some { state := PaneState.connected, tty := p', newTTY := true })) ∧
    (monitorCheck { target := target, state := PaneState.connected, lastTTY := p }
        (some p) =
      ({ target := target, state := PaneState.connected, lastTTY := p }, none)) ∧
    (monitorCheck { target := target, state := PaneState.connected, lastTTY := p }
        none =
      ({ target := target, state := PaneState.missing, lastTTY := p },
       some { state := PaneState.missing, tty := "", newTTY := false })) ∧
    (monitorCheck { target := target, state := PaneState.missing, lastTTY := p }
        none =
      ({ target := target, state := PaneState.missing, lastTTY := p }, none)) := by
  refine ⟨?_, ?_, ?_, ?_, ?_⟩ <;>
    simp [monitorCheck, htarget, hne]

theorem C5_monitor_transitions_witness :
    monitorCheck { target := "claude:0.0", state := PaneState.missing, lastTTY := "" }
        (some "/dev/pts/3") =
      ({ target := "claude:0.0", state := PaneState.connected, lastTTY := "/dev/pts/3" },
       some { state := PaneState.connected, tty := "/dev/pts/3", newTTY := true }) ∧
    monitorCheck
        { target := "claude:0.0", state := PaneState.connected, lastTTY := "/dev/pts/3" }
        (some "/dev/pts/3") =
      ({ target := "claude:0.0", state := PaneState.connected, lastTTY := "/dev/pts/3" },
       none) :=
  ⟨(C5_monitor_transitions "claude:0.0" "/dev/pts/3" "" "/dev/pts/4"
      (by decide) (by decide)).1,
   (C5_monitor_transitions "claude:0.0" "/dev/pts/3" "/dev/pts/3" "/dev/pts/4"
      (by decide) (by decide)).2.2.1⟩

/-- C6: a successful `PTYManager.Open` increments the epoch by exactly one,
the increment appears in the trace strictly before the reader goroutine is
started, and over any sequence of lifecycle operations (opens with any
outcome, closes, reattaches) the epoch never decreases — so within a session
the epoch is strictly increasing across attaches and reads never observe a
decrease. -/
theorem C6_epoch_monotonic (p : PTYState) (tmpDir ttyPath : String) (pid : Nat)
    (ops : List PTYOp) :
    ((ptyOpen p tmpDir pid ttyPath OpenOutcome.ok).1.epoch = p.epoch + 1) ∧
    ((ptyOpen p tmpDir pid ttyPath OpenOutcome.ok).2.1 = true) ∧
    (∃ i j, i < j ∧
      ((ptyOpen p tmpDir pid ttyPath OpenOutcome.ok).2.2.get? i =
        some PTYAction.incEpoch) ∧
      ((ptyOpen p tmpDir pid ttyPath OpenOutcome.ok).2.2.get? j =
        some PTYAction.startFifoReader)) ∧
    p.epoch ≤ (runPTYOps p ops).epoch := by
  refine ⟨rfl, rfl, ⟨3, 5, by omega, rfl, rfl⟩, ?_⟩
  induction ops generalizing p with
  | nil => exact Nat.le_refl _
  | cons op ops ih =>
    cases op with
    | close => exact ih (ptyClose p)
    | @«open» tmpDir pid tty outcome =>
      refine Nat.le_trans ?_ (ih (ptyOpen p tmpDir pid tty outcome).1)
      cases outcome <;> simp [ptyOpen]

theorem C6_epoch_monotonic_witness :
    (ptyOpen { tmuxTarget := "claude:0.0", epoch := 0 } "/tmp" 4242 "/dev/pts/3"
        OpenOutcome.ok).1.epoch = 1 ∧
    ({ tmuxTarget := "claude:0.0", epoch := 0 } : PTYState).epoch ≤
      (runPTYOps { tmuxTarget := "claude:0.0", epoch := 0 }
        [PTYOp.open "/tmp" 4242 "/dev/pts/3" OpenOutcome.ok, PTYOp.close,
         PTYOp.open "/tmp" 4242 "/dev/pts/5" OpenOutcome.ok]).epoch :=
  ⟨(C6_epoch_monotonic { tmuxTarget := "claude:0.0", epoch := 0 } "/tmp" "/dev/pts/3"
      4242 []).1,
   (C6_epoch_monotonic { tmuxTarget := "claude:0.0", epoch := 0 } "/tmp" "/dev/pts/3"
      4242
      [PTYOp.open "/tmp" 4242 "/dev/pts/3" OpenOutcome.ok, PTYOp.close,
       PTYOp.open "/tmp" 4242 "/dev/pts/5" OpenOutcome.ok]).2.2.2⟩

/-- C7: during a hub broadcast every registered client is processed; a client
with a full queue has the frame dropped and its drop counter incremented, and
once that counter reaches 10 a forced close of its connection is issued on a
background goroutine; a client with queue space receives the encoded frame
unchanged, appended to its queue. -/
theorem C7_broadcast_backpressure (raw : List Nat) (clients : List HubClient)
    (c : HubClient) (hc : c ∈ clients) :
    broadcastToClient raw c ∈ hubBroadcast raw clients ∧
    (c.queue.length < c.queueCap →
      broadcastToClient raw c = { c with queue := c.queue ++ [raw] }) ∧
    (¬ c.queue.length < c.queueCap →
      (broadcastToClient raw c).queue = c.queue ∧
      (broadcastToClient raw c).dropped = c.dropped + 1 ∧
      (c.dropped + 1 ≥ 10 → (broadcastToClient raw c).closeIssued = true) ∧
      (broadcastToClient raw c).closeIssued =
        (c.closeIssued || decide (c.dropped + 1 ≥ 10))) := by
  refine ⟨List.mem_map_of_mem _ hc, ?_, ?_⟩
  · intro hroom
    simp [broadcastToClient, hroom]
  · intro hfull
    refine ⟨?_, ?_, ?_, ?_⟩ <;> simp [broadcastToClient, hfull]
    intro hthresh
    simp [hthresh]

theorem C7_broadcast_backpressure_witness :
    (broadcastToClient [7, 8]
        { id := "c1", queue := [[1]], queueCap := 1, dropped := 9,
          closeIssued := false }).dropped = 10 ∧
    (broadcastToClient [7, 8]
        { id := "c1", queue := [[1]], queueCap := 1, dropped := 9,
          closeIssued := false }).closeIssued = true ∧
    broadcastToClient [7, 8]
        { id := "c2", queue := [], queueCap := 1, dropped := 0, closeIssued := false } =
      { id := "c2", queue := [[7, 8]], queueCap := 1, dropped := 0,
        closeIssued := false } := by
  have h1 := (C7_broadcast_backpressure [7, 8]
    [{ id := "c1", queue := [[1]], queueCap := 1, dropped := 9, closeIssued := false }]
    { id := "c1", queue := [[1]], queueCap := 1, dropped := 9, closeIssued := false }
    (by simp)).2.2 (by decide)
  have h2 := (C7_broadcast_backpressure [7, 8]
    [{ id := "c2", queue := [], queueCap := 1, dropped := 0, closeIssued := false }]
    { id := "c2", queue := [], queueCap := 1, dropped := 0, closeIssued := false }
    (by simp)).2.1 (by decide)
  exact ⟨h1.2.1, h1.2.2.1 (by decide), by simpa using h2⟩

/-- C8: a well-formed resize frame parses successfully, and handling it in the
live loop leaves the entire session state (pane monitor, PTY manager, ring
buffer) unchanged and performs no action at all — in particular no resize is
applied to the pane on behalf of the client. -/
theorem C8_resize_ignored (st : SessionState) (fields : RawClientMsg)
    (decoded : Option (List Nat)) (hf : fields.type = "resize") :
    parseClientMessage fields = Except.ok (ClientMsg.resize fields.cols fields.rows) ∧
    handleLiveMessage st (ClientMsg.resize fields.cols fields.rows) decoded =
      (st, ([] : List LiveAction)) := by
  constructor
  · unfold parseClientMessage
    rw [hf]
    rfl
  · rfl

theorem hubUnregister_not_mem (h : HubState) (id : String)
    (hno : id ∉ h.clients) : hubUnregister h id = h := by
  unfold hubUnregister
  rw [if_neg hno]

theorem C8_resize_ignored_witness :
    parseClientMessage { type := "resize", cols := 120, rows := 40 } =
      Except.ok (ClientMsg.resize 120 40) ∧
    handleLiveMessage
        { pty := { tmuxTarget := "claude:0.0", epoch := 2 },
          monitor := { target := "claude:0.0", state := PaneState.connected,
                       lastTTY := "/dev/pts/3" },
          ring := NewRingBuffer 16 }
        (ClientMsg.resize 120 40) none =
      ({ pty := { tmuxTarget := "claude:0.0", epoch := 2 },
         monitor := { target := "claude:0.0", state := PaneState.connected,
                      lastTTY := "/dev/pts/3" },
         ring := NewRingBuffer 16 }, ([] : List LiveAction)) :=
  C8_resize_ignored
    { pty := { tmuxTarget := "claude:0.0", epoch := 2 },
      monitor := { target := "claude:0.0", state := PaneState.connected,
                   lastTTY := "/dev/pts/3" },
      ring := NewRingBuffer 16 }
    { type := "resize", cols := 120, rows := 40 } none rfl

/-- C9 counterexample: the FIFO path built by `PTYManager.Open` depends only
on the temporary directory and the process id, so two distinct concurrently
open sessions of the same process (different tmux targets, different pane
ttys) get the same pipe path — refuting "two concurrently open Sessions in
the same process never share a pipe path". -/
theorem C9_pipe_path_counterexample :
    openFifoPath "/tmp" 4242 "alpha:0.0" "/dev/pts/5" =
      openFifoPath "/tmp" 4242 "beta:1.0" "/dev/pts/7" ∧
    ("alpha:0.0" : String) ≠ "beta:1.0" := by
  exact ⟨rfl, by decide⟩

/-- C9 (amended): on every successful open the FIFO is created under the
temporary directory with mode 0600, at the process-wide path
`c3-pipe-<pid>`; the path depends only on the process id, so every
attachment in one process — in particular two concurrently open sessions —
uses the same pipe path. -/
theorem C9_pipe_path_amended (p : PTYState) (tmpDir t2 y2 ttyPath : String)
    (pid : Nat) :
    openFifoPath tmpDir pid p.tmuxTarget ttyPath =
      tmpDir ++ "/c3-pipe-" ++ toString pid ∧
    openFifoPath tmpDir pid p.tmuxTarget ttyPath = openFifoPath tmpDir pid t2 y2 ∧
    mkfifoMode = 0o600 ∧
    (ptyOpen p tmpDir pid ttyPath OpenOutcome.ok).2.2.get? 2 =
      some (PTYAction.mkfifo (openFifoPath tmpDir pid p.tmuxTarget ttyPath)
        mkfifoMode) :=
  ⟨rfl, rfl, rfl, rfl⟩

/-- C10: `Hub.Unregister` on a registered client removes it from the client
map and closes its send channel exactly once; a second `Unregister` for the
same client finds it absent, leaves the hub state unchanged and does not
close the channel again. -/
theorem C10_unregister_idempotent (h : HubState) (id : String)
    (hnd : h.clients.Nodup) (hreg : id ∈ h.clients) :
    ((hubUnregister h id).clients = h.clients.erase id) ∧
    ((hubUnregister h id).closeCount id = h.closeCount id + 1) ∧
    (∀ x, x ≠ id → (hubUnregister h id).closeCount x = h.closeCount x) ∧
    (hubUnregister (hubUnregister h id) id = hubUnregister h id) := by
  have hstep : hubUnregister h id =
      { clients := h.clients.erase id,
        closeCount := fun x => if x = id then h.closeCount x + 1 else h.closeCount x } := by
    unfold hubUnregister
    rw [if_pos hreg]
  have hout : id ∉ (hubUnregister h id).clients := by
    rw [hstep]
    intro hmem
    exact absurd rfl ((List.Nodup.mem_erase_iff hnd).mp hmem).1
  refine ⟨by rw [hstep], by rw [hstep]; simp, ?_, ?_⟩
  · intro x hx
    rw [hstep]
    simp [hx]
  · exact hubUnregister_not_mem _ _ hout

theorem C10_unregister_idempotent_witness :
    (hubUnregister { clients := ["c1", "c2"], closeCount := fun _ => 0 } "c1").clients
      = ["c2"] ∧
    (hubUnregister { clients := ["c1", "c2"], closeCount := fun _ => 0 } "c1").closeCount
      "c1" = 1 ∧
    hubUnregister
        (hubUnregister { clients := ["c1", "c2"], closeCount := fun _ => 0 } "c1") "c1"
      = hubUnregister { clients := ["c1", "c2"], closeCount := fun _ => 0 } "c1" := by
  have h := C10_unregister_idempotent
    { clients := ["c1", "c2"], closeCount := fun _ => 0 } "c1"
    (by decide) (by decide)
  exact ⟨by rw [h.1]; rfl, by rw [h.2.1], h.2.2.2⟩

/-- C2 counterexample: `Client.sendStatus` builds the initial status frame
with the string literal `"connected"` whatever the pane state is, so a first
subscriber connecting while the pane is absent (epoch 0, pane dimensions
unavailable) receives paneState `"connected"`, not `"missing"`. -/
theorem C2_initial_status_counterexample :
    (sendStatusMsg 0 "claude:0.0" none).paneState = "connected" ∧
    (sendStatusMsg 0 "claude:0.0" none).paneState ≠ "missing" ∧
    (sendStatusMsg 0 "claude:0.0" none).epoch = 0 := by
  refine ⟨rfl, by decide, rfl⟩

/-- C2 (amended): if the pane is absent when the first subscriber connects,
that subscriber's initial status frame has paneState `"connected"` (not
`"missing"`) with epoch 0; when the pane appears, the monitor emits a
connected event with a new tty, and the supervisor reattaches and broadcasts
a status frame with paneState `"connected"` carrying the incremented
epoch 1. -/
theorem C2_first_subscriber_amended (target tty tmpDir : String) (pid : Nat)
    (ht : target ≠ "") :
    (sendStatusMsg 0 target none).paneState = "connected" ∧
    (sendStatusMsg 0 target none).epoch = 0 ∧
    (monitorCheck { target := target, state := PaneState.missing, lastTTY := "" }
        (some tty)).2 =
      some { state := PaneState.connected, tty := tty, newTTY := true } ∧
    (supervisorStep { tmuxTarget := target, epoch := 0 }
        { state := PaneState.connected, tty := tty, newTTY := true }
        tmpDir pid OpenOutcome.ok).2 =
      [SupAction.reattach tty, SupAction.broadcastStatus "connected" 1] := by
  refine ⟨by simp [sendStatusMsg, ht], by simp [sendStatusMsg, ht], ?_, rfl⟩
  simp [monitorCheck, ht]

theorem C2_first_subscriber_amended_witness :
    (sendStatusMsg 0 "claude:0.0" none).paneState = "connected" ∧
    (supervisorStep { tmuxTarget := "claude:0.0", epoch := 0 }
        { state := PaneState.connected, tty := "/dev/pts/3", newTTY := true }
        "/tmp" 4242 OpenOutcome.ok).2 =
      [SupAction.reattach "/dev/pts/3", SupAction.broadcastStatus "connected" 1] :=
  ⟨(C2_first_subscriber_amended "claude:0.0" "/dev/pts/3" "/tmp" 4242 (by decide)).1,
   (C2_first_subscriber_amended "claude:0.0" "/dev/pts/3" "/tmp" 4242 (by decide)).2.2.2⟩

/-- C1: for a subscriber whose hello has replayMode different from "full",
the replay step captures the pane via the tmux capture-pane command (with
`-e` escape-sequence preservation and `-S -2000` scrollback), queries the
live cursor position, and sends exactly one output frame consisting of the
cursor-home escape, the LF → CR LF normalised snapshot, and the
cursor-position escape restoring the live cursor coordinates — and that
frame is sent before the subscriber registers with the hub for live
traffic. -/
theorem C1_tail_replay_snapshot (mode target : String) (snap : List Nat)
    (col row : Nat) (ringSnap : List Nat)
    (hmode : mode ≠ "full") (htarget : target ≠ "") (hsnap : snap ≠ []) :
    clientConnectEvents mode target (some snap) (some (col, row)) ringSnap =
      [ClientEvent.capturePane target 2000,
       ClientEvent.queryCursor target,
       ClientEvent.outputFrame
         (cursorHome ++ crlfNormalize snap ++ cursorPosSeq (row + 1) (col + 1)),
       ClientEvent.registerHub, ClientEvent.sendStatus, ClientEvent.injectCtrlL] ∧
    capturePaneArgs target 2000 =
      ["capture-pane", "-e", "-p", "-t", target, "-S", "-2000"] := by
  have hlen : snap.length > 0 := List.length_pos.mpr hsnap
  constructor
  · simp [clientConnectEvents, clientReplay, hmode, htarget, hlen]
  · unfold capturePaneArgs
    rfl

theorem C1_tail_replay_snapshot_witness :
    clientConnectEvents "tail" "claude:0.0" (some (strBytes "hi\nx"))
        (some (2, 1)) [] =
      [ClientEvent.capturePane "claude:0.0" 2000,
       ClientEvent.queryCursor "claude:0.0",
       ClientEvent.outputFrame
         (cursorHome ++ crlfNormalize (strBytes "hi\nx") ++ cursorPosSeq 2 3),
       ClientEvent.registerHub, ClientEvent.sendStatus, ClientEvent.injectCtrlL] ∧
    capturePaneArgs "claude:0.0" 2000 =
      ["capture-pane", "-e", "-p", "-t", "claude:0.0", "-S", "-2000"] :=
  C1_tail_replay_snapshot "tail" "claude:0.0" (strBytes "hi\nx") 2 1 []
    (by decide) (by decide) (by decide)

end C3
